import Mathlib

/-!
Shallow embedding of `src/server.js`, a room-based turn coordinator for a
three-seat draft game over socket.io.

The server keeps two global Maps: `games` (room code to game state) and
`players` (socket id to participant record).  Each socket event handler is
embedded as a pure function from the server state (plus the event payload,
the sender's socket id, and the current time in milliseconds where the code
calls `Date.now()`) to the new server state together with the list of
messages it emits.  `setInterval` loops spawned by `startTimerBroadcast`
are modelled by the multiset `intervals` of room codes with a live loop;
one callback execution of such a loop is the function `tick`.

JavaScript values stored as roster payloads are modelled by `JSValue`,
with the JS truthiness test embedded as `truthy` (the code guards the
roster write with `if (gameState.rosters[playerId][positionId])`).
-/

/-- A JavaScript value as far as roster payloads and truthiness are
concerned: `undefined`, `null`, booleans, (integer) numbers, strings, and
objects (always truthy, distinguished by an id). -/
inductive JSValue where
  | vUndefined : JSValue
  | vNull : JSValue
  | vBool : Bool → JSValue
  | vNum : Int → JSValue
  | vStr : String → JSValue
  | vObj : Nat → JSValue
  deriving DecidableEq, Repr

/-- JS truthiness: `undefined`, `null`, `false`, `0` and `""` are falsy. -/
def truthy : JSValue → Bool
  | JSValue.vUndefined => false
  | JSValue.vNull => false
  | JSValue.vBool b => b
  | JSValue.vNum n => n != 0
  | JSValue.vStr s => s != ""
  | JSValue.vObj _ => true

/-- Lookup in a JS `Map` / object, modelled as an association list with
unique keys (insertion order preserved, as in a JS `Map`). -/
def mapGet {α : Type} : List (String × α) → String → Option α
  | [], _ => none
  | (k, v) :: rest, k2 => if k = k2 then some v else mapGet rest k2

/-- `Map.set` / object property assignment: replace the value in place if
the key is present, otherwise append the new entry. -/
def mapSet {α : Type} : List (String × α) → String → α → List (String × α)
  | [], k, v => [(k, v)]
  | (k0, v0) :: rest, k, v =>
      if k0 = k then (k, v) :: rest else (k0, v0) :: mapSet rest k v

/-- `Map.delete`: remove the entry with the given key (keys are unique). -/
def mapDelete {α : Type} : List (String × α) → String → List (String × α)
  | [], _ => []
  | (k0, v0) :: rest, k =>
      if k0 = k then rest else (k0, v0) :: mapDelete rest k

/-- Reading `obj[key]` on a plain JS object yields `undefined` when the key
is absent. -/
def jsIndex (m : List (String × JSValue)) (k : String) : JSValue :=
  (mapGet m k).getD JSValue.vUndefined

/-- The JS idiom `x || d` for an optional string `x` (absent or empty
falls back to the default). -/
def jsOr (v : Option String) (d : String) : String :=
  match v with
  | some s => if s = "" then d else s
  | none => d

/-- A seat occupant, as built by the createGame / joinGame handlers:
`{ id: socket.id, name: ..., ready: false }`. -/
structure Player where
  id : String
  name : String
  ready : Bool
  deriving DecidableEq, Repr

/-- One entry of the global `players` Map:
`{ playerId, roomId, name }` as stored by createGame / joinGame. -/
structure ParticipantRecord where
  playerId : Nat
  roomId : String
  name : Option String
  deriving DecidableEq, Repr

/-- The per-room `gameState` object.  The JS objects `players` (keys 1..3,
values occupant or `null`) and `rosters` (keys 1..3, values position map)
are flattened into one field per key; all accesses in the source use keys
1, 2, 3 only. -/
structure GameState where
  roomCode : String
  players1 : Option Player
  players2 : Option Player
  players3 : Option Player
  roster1 : List (String × JSValue)
  roster2 : List (String × JSValue)
  roster3 : List (String × JSValue)
  currentTurn : Nat
  timerEndTime : Option Nat
  TIMER_DURATION : Nat
  deriving DecidableEq, Repr

/-- `gameState.players[i]` for `i` in 1..3 (`undefined`, i.e. no occupant
value at all, outside that range; the source only ever uses 1..3). -/
def playersGet (g : GameState) (i : Nat) : Option Player :=
  if i = 1 then g.players1 else if i = 2 then g.players2
  else if i = 3 then g.players3 else none

/-- `gameState.players[i] = p` for `i` in 1..3. -/
def playersSet (g : GameState) (i : Nat) (p : Option Player) : GameState :=
  if i = 1 then { g with players1 := p }
  else if i = 2 then { g with players2 := p }
  else if i = 3 then { g with players3 := p } else g

/-- `gameState.rosters[i]` for `i` in 1..3. -/
def rostersGet (g : GameState) (i : Nat) : List (String × JSValue) :=
  if i = 1 then g.roster1 else if i = 2 then g.roster2
  else if i = 3 then g.roster3 else []

/-- `gameState.rosters[i] = r` for `i` in 1..3. -/
def rostersSet (g : GameState) (i : Nat) (r : List (String × JSValue)) : GameState :=
  if i = 1 then { g with roster1 := r }
  else if i = 2 then { g with roster2 := r }
  else if i = 3 then { g with roster3 := r } else g

/-- The events the server emits.  Payload fields are restricted to the
discriminating data (ids, position, turn, deadline, error text). -/
inductive OutEvent where
  | gameCreated : String → Nat → OutEvent
  | gameJoined : Nat → OutEvent
  | playerJoined : Nat → OutEvent
  | gameStarted : Nat → OutEvent
  | playerSelected : Nat → String → OutEvent
  | turnSkipped : OutEvent
  | turnChanged : Nat → Nat → OutEvent
  | timerUpdate : Int → Nat → OutEvent
  | playerDisconnected : Nat → OutEvent
  | errorEv : String → OutEvent
  deriving DecidableEq, Repr

/-- A delivery: `socket.emit(...)` to one connection, or
`io.to(roomCode).emit(...)` to a room. -/
inductive Emit where
  | toSocket : String → OutEvent → Emit
  | toRoom : String → OutEvent → Emit
  deriving DecidableEq, Repr

/-- The whole server state: the `games` Map, the `players` Map, and the
multiset of room codes with a live `setInterval` countdown loop. -/
structure ServerState where
  games : List (String × GameState)
  players : List (String × ParticipantRecord)
  intervals : List String
  deriving DecidableEq, Repr

/-- Server state at process start: both Maps empty, no loops. -/
def initState : ServerState :=
  { games := [], players := [], intervals := [] }

/-- The `createGame` handler.  `roomCode` is the value returned by
`generateRoomCode()` (a 6-character token from `Math.random()`; being
random it enters the model as an input).  Note the handler inserts with
`games.set(roomCode, gameState)` without checking whether the code is
already present. -/
def handleCreateGame (s : ServerState) (socketId : String) (playerName : Option String)
    (roomCode : String) : ServerState × List Emit :=
  let gameState : GameState :=
    { roomCode := roomCode
      players1 := some { id := socketId, name := jsOr playerName "Player 1", ready := false }
      players2 := none
      players3 := none
      roster1 := []
      roster2 := []
      roster3 := []
      currentTurn := 1
      timerEndTime := none
      TIMER_DURATION := 15 }
  ({ s with
      games := mapSet s.games roomCode gameState
      players := mapSet s.players socketId
        { playerId := 1, roomId := roomCode, name := playerName } },
   [Emit.toSocket socketId (OutEvent.gameCreated roomCode 1)])

/-- The `joinGame` handler: error if the room is absent, else scan seats
2 then 3 for a `null` occupant, error if none, else occupy it. -/
def handleJoinGame (s : ServerState) (socketId roomCode : String)
    (playerName : Option String) : ServerState × List Emit :=
  match mapGet s.games roomCode with
  | none => (s, [Emit.toSocket socketId (OutEvent.errorEv "Room not found")])
  | some gameState =>
    let playerId : Option Nat :=
      if playersGet gameState 2 = none then some 2
      else if playersGet gameState 3 = none then some 3
      else none
    match playerId with
    | none => (s, [Emit.toSocket socketId (OutEvent.errorEv "Room is full")])
    | some pid =>
      let g2 := playersSet gameState pid
        (some { id := socketId, name := jsOr playerName ("Player " ++ toString pid),
                ready := false })
      ({ s with
          games := mapSet s.games roomCode g2
          players := mapSet s.players socketId
            { playerId := pid, roomId := roomCode, name := playerName } },
       [Emit.toSocket socketId (OutEvent.gameJoined pid),
        Emit.toRoom roomCode (OutEvent.playerJoined pid)])

/-- `currentTurn === 3 ? 1 : currentTurn + 1`. -/
def nextTurn (t : Nat) : Nat := if t = 3 then 1 else t + 1

/-- The helper `advanceTurn(roomCode)`: silently returns if the room is
absent; otherwise cycles `currentTurn`, resets
`timerEndTime = Date.now() + TIMER_DURATION * 1000`, and broadcasts
`turnChanged`. -/
def advanceTurn (s : ServerState) (roomCode : String) (now : Nat) :
    ServerState × List Emit :=
  match mapGet s.games roomCode with
  | none => (s, [])
  | some gameState =>
    let g2 := { gameState with
        currentTurn := nextTurn gameState.currentTurn
        timerEndTime := some (now + gameState.TIMER_DURATION * 1000) }
    ({ s with games := mapSet s.games roomCode g2 },
     [Emit.toRoom roomCode
        (OutEvent.turnChanged (nextTurn gameState.currentTurn)
          (now + gameState.TIMER_DURATION * 1000))])

/-- The `startGame` handler: silently returns if the room is absent;
otherwise sets the deadline, forces `currentTurn = 1`, broadcasts
`gameStarted`, and calls `startTimerBroadcast(roomCode)` — which
unconditionally spawns a fresh `setInterval` loop (recorded by appending
to `intervals`). -/
def handleStartGame (s : ServerState) (socketId roomCode : String) (now : Nat) :
    ServerState × List Emit :=
  match mapGet s.games roomCode with
  | none => (s, [])
  | some gameState =>
    let g2 := { gameState with
        timerEndTime := some (now + gameState.TIMER_DURATION * 1000)
        currentTurn := 1 }
    ({ s with
        games := mapSet s.games roomCode g2
        intervals := s.intervals ++ [roomCode] },
     [Emit.toRoom roomCode
        (OutEvent.gameStarted (now + gameState.TIMER_DURATION * 1000))])

/-- The `selectPlayer` handler.  It looks up the game named by the event's
`roomCode` and the sender's participant record, silently returns if either
is absent, rejects with "Not your turn" when the named game's
`currentTurn` differs from the sender's `playerId`, rejects with
"Position already filled" when the stored payload is truthy, and
otherwise stores the payload, broadcasts `playerSelected`, and calls
`advanceTurn`.  (The sender's `roomId` is never compared with the event's
`roomCode`.) -/
def handleSelectPlayer (s : ServerState) (socketId roomCode positionId : String)
    (playerData : JSValue) (now : Nat) : ServerState × List Emit :=
  match mapGet s.games roomCode, mapGet s.players socketId with
  | some gameState, some player =>
    let playerId := player.playerId
    if gameState.currentTurn ≠ playerId then
      (s, [Emit.toSocket socketId (OutEvent.errorEv "Not your turn")])
    else if truthy (jsIndex (rostersGet gameState playerId) positionId) then
      (s, [Emit.toSocket socketId (OutEvent.errorEv "Position already filled")])
    else
      let g2 := rostersSet gameState playerId
        (mapSet (rostersGet gameState playerId) positionId playerData)
      let s1 := { s with games := mapSet s.games roomCode g2 }
      let adv := advanceTurn s1 roomCode now
      (adv.1, Emit.toRoom roomCode (OutEvent.playerSelected playerId positionId) :: adv.2)
  | _, _ => (s, [])

/-- The `skipTurn` handler: silently returns if game or sender record is
absent; when it is the sender's turn, calls `advanceTurn` and then
broadcasts `turnSkipped`; otherwise does nothing (no error is emitted). -/
def handleSkipTurn (s : ServerState) (socketId roomCode : String) (now : Nat) :
    ServerState × List Emit :=
  match mapGet s.games roomCode, mapGet s.players socketId with
  | some gameState, some player =>
    if gameState.currentTurn = player.playerId then
      let adv := advanceTurn s roomCode now
      (adv.1, adv.2 ++ [Emit.toRoom roomCode OutEvent.turnSkipped])
    else (s, [])
  | _, _ => (s, [])

/-- The `disconnect` handler: if the sender has a participant record, null
its seat in its room (when the room still exists) with a
`playerDisconnected` broadcast, then delete the record. -/
def handleDisconnect (s : ServerState) (socketId : String) : ServerState × List Emit :=
  match mapGet s.players socketId with
  | none => (s, [])
  | some player =>
    match mapGet s.games player.roomId with
    | some gameState =>
      ({ s with
          games := mapSet s.games player.roomId (playersSet gameState player.playerId none)
          players := mapDelete s.players socketId },
       [Emit.toRoom player.roomId (OutEvent.playerDisconnected player.playerId)])
    | none => ({ s with players := mapDelete s.players socketId }, [])

/-- JS truthiness of `gameState.timerEndTime` (a number or `null`):
falsy when `null` or `0`. -/
def timerFalsy : Option Nat → Bool
  | none => true
  | some n => n = 0

/-- One execution of the `setInterval` callback installed by
`startTimerBroadcast(roomCode)`, at time `now`: clear the interval when
the room is gone or its `timerEndTime` is falsy; otherwise broadcast
`timerUpdate` with `Math.max(0, timerEndTime - Date.now())`, and call
`advanceTurn` when that remaining time is `<= 0`. -/
def tick (s : ServerState) (roomCode : String) (now : Nat) : ServerState × List Emit :=
  match mapGet s.games roomCode with
  | none => ({ s with intervals := s.intervals.erase roomCode }, [])
  | some gameState =>
    if timerFalsy gameState.timerEndTime then
      ({ s with intervals := s.intervals.erase roomCode }, [])
    else
      let endTime := gameState.timerEndTime.getD 0
      let timeRemaining : Int := max 0 ((endTime : Int) - (now : Int))
      let upd := Emit.toRoom roomCode (OutEvent.timerUpdate timeRemaining gameState.currentTurn)
      if timeRemaining ≤ 0 then
        let adv := advanceTurn s roomCode now
        (adv.1, upd :: adv.2)
      else (s, [upd])

/-- Server states reachable from process start by any interleaving of
socket events and timer-loop callbacks. -/
inductive Reachable : ServerState → Prop where
  | init : Reachable initState
  | createGame (s : ServerState) (sid : String) (pn : Option String) (rc : String) :
      Reachable s → Reachable (handleCreateGame s sid pn rc).1
  | joinGame (s : ServerState) (sid rc : String) (pn : Option String) :
      Reachable s → Reachable (handleJoinGame s sid rc pn).1
  | startGame (s : ServerState) (sid rc : String) (now : Nat) :
      Reachable s → Reachable (handleStartGame s sid rc now).1
  | selectPlayer (s : ServerState) (sid rc pos : String) (pd : JSValue) (now : Nat) :
      Reachable s → Reachable (handleSelectPlayer s sid rc pos pd now).1
  | skipTurn (s : ServerState) (sid rc : String) (now : Nat) :
      Reachable s → Reachable (handleSkipTurn s sid rc now).1
  | disconnect (s : ServerState) (sid : String) :
      Reachable s → Reachable (handleDisconnect s sid).1
  | timerTick (s : ServerState) (rc : String) (now : Nat) :
      Reachable s → Reachable (tick s rc now).1

/-- Is a delivery an `error` event?  (The server only ever emits errors
with `socket.emit`, i.e. to the originating connection.) -/
def isErrorEmit : Emit → Bool
  | Emit.toSocket _ (OutEvent.errorEv _) => true
  | Emit.toRoom _ (OutEvent.errorEv _) => true
  | _ => false

/-! ### Concrete scenario states

Runs of the embedded handlers on concrete inputs, used to instantiate the
general theorems and to exhibit counterexamples.  `Math.random`-generated
room codes enter as explicit inputs. -/

/-- Alice creates room AAAAAA. -/
def srvA : ServerState := (handleCreateGame initState "sockA" (some "Alice") "AAAAAA").1

/-- The game state of room AAAAAA right after creation. -/
def gAlice : GameState :=
  { roomCode := "AAAAAA"
    players1 := some { id := "sockA", name := "Alice", ready := false }
    players2 := none
    players3 := none
    roster1 := []
    roster2 := []
    roster3 := []
    currentTurn := 1
    timerEndTime := none
    TIMER_DURATION := 15 }

/-- Bob joins room AAAAAA (seat 2). -/
def srvAB : ServerState := (handleJoinGame srvA "sockB" "AAAAAA" (some "Bob")).1

/-- Room AAAAAA with Alice (seat 1) and Bob (seat 2). -/
def gAliceBob : GameState :=
  { gAlice with players2 := some { id := "sockB", name := "Bob", ready := false } }

/-- Cara joins room AAAAAA (seat 3). -/
def srvABC : ServerState := (handleJoinGame srvAB "sockC" "AAAAAA" (some "Cara")).1

/-- Room AAAAAA with all three seats taken. -/
def gABC : GameState :=
  { gAliceBob with players3 := some { id := "sockC", name := "Cara", ready := false } }

/-- Alice selects position QB with the falsy payload `0` (at time 1000). -/
def srvSel0 : ServerState × List Emit :=
  handleSelectPlayer srvA "sockA" "AAAAAA" "QB" (JSValue.vNum 0) 1000

/-- Room AAAAAA after the falsy-payload selection: position QB holds `0`,
turn has advanced to seat 2. -/
def gSel0 : GameState :=
  { gAlice with roster1 := [("QB", JSValue.vNum 0)], currentTurn := 2,
                timerEndTime := some 16000 }

/-- startGame at time 2000 resets `currentTurn` to 1. -/
def srvStart0 : ServerState := (handleStartGame srvSel0.1 "sockA" "AAAAAA" 2000).1

/-- Alice re-selects the already-set position QB (at time 3000). -/
def srvSel0b : ServerState × List Emit :=
  handleSelectPlayer srvStart0 "sockA" "AAAAAA" "QB" (JSValue.vStr "overwritten") 3000

/-- Room AAAAAA after the second selection: the stored payload for QB has
been replaced. -/
def gSel0b : GameState :=
  { gAlice with roster1 := [("QB", JSValue.vStr "overwritten")], currentTurn := 2,
                timerEndTime := some 18000 }

/-- Alice selects position QB with a truthy (object) payload. -/
def srvSel1 : ServerState :=
  (handleSelectPlayer srvA "sockA" "AAAAAA" "QB" (JSValue.vObj 1) 1000).1

/-- startGame at time 2000 hands the turn back to seat 1. -/
def srvSel1Start : ServerState := (handleStartGame srvSel1 "sockA" "AAAAAA" 2000).1

/-- Room AAAAAA in `srvSel1Start`: QB holds a truthy payload, turn is 1. -/
def gSel1Start : GameState :=
  { gAlice with roster1 := [("QB", JSValue.vObj 1)], currentTurn := 1,
                timerEndTime := some 17000 }

/-- A second createGame draws the same room code AAAAAA. -/
def srvColl : ServerState := (handleCreateGame srvA "sockB" (some "Bob") "AAAAAA").1

/-- The room stored under AAAAAA after the collision: Bob's fresh room. -/
def gBobOverA : GameState :=
  { gAlice with players1 := some { id := "sockB", name := "Bob", ready := false } }

/-- startGame on room AAAAAA at time 0 (deadline 15000). -/
def srvStart1 : ServerState := (handleStartGame srvA "sockA" "AAAAAA" 0).1

/-- Room AAAAAA inside `srvStart1`. -/
def gStart1 : GameState := { gAlice with timerEndTime := some 15000 }

/-- A second startGame on the same room at time 100. -/
def srvStart2 : ServerState := (handleStartGame srvStart1 "sockA" "AAAAAA" 100).1

/-- The timer loop fires at the deadline 15000: the turn advances. -/
def srvTickA : ServerState := (tick srvStart1 "AAAAAA" 15000).1

/-- Room AAAAAA inside `srvTickA`: turn 2, fresh deadline 30000. -/
def gTickA : GameState :=
  { gAlice with currentTurn := 2, timerEndTime := some 30000 }

/-- Bob creates a second room BBBBBB (Alice is seated in AAAAAA). -/
def srvTwoRooms : ServerState := (handleCreateGame srvA "sockB" (some "Bob") "BBBBBB").1

/-- Room BBBBBB right after creation. -/
def gBobFresh : GameState :=
  { gAlice with roomCode := "BBBBBB",
                players1 := some { id := "sockB", name := "Bob", ready := false } }

/-- Alice — seated in room AAAAAA — sends selectPlayer naming room BBBBBB. -/
def crossSel : ServerState × List Emit :=
  handleSelectPlayer srvTwoRooms "sockA" "BBBBBB" "QB" (JSValue.vObj 7) 500

/-- Room BBBBBB after Alice's cross-room selection: its roster was mutated
by a sender seated in a different room. -/
def gBobAfterCross : GameState :=
  { gBobFresh with roster1 := [("QB", JSValue.vObj 7)], currentTurn := 2,
                   timerEndTime := some 15500 }

/-- startGame on room AAAAAA at time 1000 (deadline 16000). -/
def srvStartA : ServerState := (handleStartGame srvA "sockA" "AAAAAA" 1000).1

/-- Room AAAAAA inside `srvStartA`. -/
def gStartA : GameState := { gAlice with timerEndTime := some 16000 }

/-! ### Association-list lemmas -/

theorem mapGet_mapSet_eq {α : Type} (m : List (String × α)) (k : String) (v : α) :
    mapGet (mapSet m k v) k = some v := by
  induction m with
  | nil => simp [mapGet, mapSet]
  | cons hd tl ih =>
    obtain ⟨k0, v0⟩ := hd
    by_cases h : k0 = k
    · simp [mapGet, mapSet, h]
    · simp [mapGet, mapSet, h, ih]

theorem mapGet_mapSet_ne {α : Type} (m : List (String × α)) (k k2 : String) (v : α)
    (h : k2 ≠ k) : mapGet (mapSet m k v) k2 = mapGet m k2 := by
  induction m with
  | nil => simp [mapGet, mapSet, Ne.symm h]
  | cons hd tl ih =>
    obtain ⟨k0, v0⟩ := hd
    by_cases h0 : k0 = k
    · subst h0
      simp [mapGet, mapSet, Ne.symm h]
    · simp only [mapSet, if_neg h0]
      by_cases h2 : k0 = k2
      · simp [mapGet, h2]
      · simp [mapGet, h2, ih]

theorem mapGet_mapSet_cases {α : Type} (m : List (String × α)) (k k2 : String) (v v2 : α)
    (h : mapGet (mapSet m k v) k2 = some v2) :
    (k2 = k ∧ v2 = v) ∨ (k2 ≠ k ∧ mapGet m k2 = some v2) := by
  by_cases hk : k2 = k
  · subst hk
    rw [mapGet_mapSet_eq] at h
    exact Or.inl ⟨rfl, (Option.some.injEq _ _ ▸ h).symm⟩
  · rw [mapGet_mapSet_ne _ _ _ _ hk] at h
    exact Or.inr ⟨hk, h⟩

theorem mapSet_mapSet {α : Type} (m : List (String × α)) (k : String) (v w : α) :
    mapSet (mapSet m k v) k w = mapSet m k w := by
  induction m with
  | nil => simp [mapSet]
  | cons hd tl ih =>
    obtain ⟨k0, v0⟩ := hd
    by_cases h : k0 = k
    · simp [mapSet, h]
    · simp [mapSet, h, ih]

/-! ### Field-preservation lemmas for seat / roster assignment -/

@[simp] theorem playersSet_currentTurn (g : GameState) (i : Nat) (p : Option Player) :
    (playersSet g i p).currentTurn = g.currentTurn := by
  unfold playersSet; split_ifs <;> rfl

@[simp] theorem playersSet_timerEndTime (g : GameState) (i : Nat) (p : Option Player) :
    (playersSet g i p).timerEndTime = g.timerEndTime := by
  unfold playersSet; split_ifs <;> rfl

@[simp] theorem playersSet_TIMER_DURATION (g : GameState) (i : Nat) (p : Option Player) :
    (playersSet g i p).TIMER_DURATION = g.TIMER_DURATION := by
  unfold playersSet; split_ifs <;> rfl

@[simp] theorem playersSet_roomCode (g : GameState) (i : Nat) (p : Option Player) :
    (playersSet g i p).roomCode = g.roomCode := by
  unfold playersSet; split_ifs <;> rfl

@[simp] theorem rostersGet_playersSet (g : GameState) (i j : Nat) (p : Option Player) :
    rostersGet (playersSet g i p) j = rostersGet g j := by
  unfold playersSet rostersGet; split_ifs <;> rfl

@[simp] theorem rostersSet_currentTurn (g : GameState) (i : Nat)
    (r : List (String × JSValue)) : (rostersSet g i r).currentTurn = g.currentTurn := by
  unfold rostersSet; split_ifs <;> rfl

@[simp] theorem rostersSet_timerEndTime (g : GameState) (i : Nat)
    (r : List (String × JSValue)) : (rostersSet g i r).timerEndTime = g.timerEndTime := by
  unfold rostersSet; split_ifs <;> rfl

@[simp] theorem rostersSet_TIMER_DURATION (g : GameState) (i : Nat)
    (r : List (String × JSValue)) : (rostersSet g i r).TIMER_DURATION = g.TIMER_DURATION := by
  unfold rostersSet; split_ifs <;> rfl

@[simp] theorem rostersSet_roomCode (g : GameState) (i : Nat)
    (r : List (String × JSValue)) : (rostersSet g i r).roomCode = g.roomCode := by
  unfold rostersSet; split_ifs <;> rfl

@[simp] theorem playersGet_rostersSet (g : GameState) (i j : Nat)
    (r : List (String × JSValue)) : playersGet (rostersSet g i r) j = playersGet g j := by
  unfold rostersSet playersGet; split_ifs <;> rfl

theorem playersGet_playersSet_self (g : GameState) (i : Nat) (p : Option Player)
    (hi : i = 1 ∨ i = 2 ∨ i = 3) : playersGet (playersSet g i p) i = p := by
  rcases hi with h | h | h <;> subst h <;> simp [playersGet, playersSet]

theorem playersGet_playersSet_ne (g : GameState) (i j : Nat) (p : Option Player)
    (h : j ≠ i) : playersGet (playersSet g i p) j = playersGet g j := by
  unfold playersSet playersGet
  split_ifs <;> simp_all

theorem rostersGet_rostersSet_self (g : GameState) (i : Nat)
    (r : List (String × JSValue)) (hi : i = 1 ∨ i = 2 ∨ i = 3) :
    rostersGet (rostersSet g i r) i = r := by
  rcases hi with h | h | h <;> subst h <;> simp [rostersGet, rostersSet]

theorem rostersGet_rostersSet_ne (g : GameState) (i j : Nat)
    (r : List (String × JSValue)) (h : j ≠ i) :
    rostersGet (rostersSet g i r) j = rostersGet g j := by
  unfold rostersSet rostersGet
  split_ifs <;> simp_all

/-! ### Equational characterization of each handler -/

theorem handleCreateGame_eq (s : ServerState) (sid : String) (pn : Option String)
    (rc : String) :
    handleCreateGame s sid pn rc =
      ({ s with
          games := mapSet s.games rc
            { roomCode := rc
              players1 := some { id := sid, name := jsOr pn "Player 1", ready := false }
              players2 := none
              players3 := none
              roster1 := []
              roster2 := []
              roster3 := []
              currentTurn := 1
              timerEndTime := none
              TIMER_DURATION := 15 }
          players := mapSet s.players sid { playerId := 1, roomId := rc, name := pn } },
       [Emit.toSocket sid (OutEvent.gameCreated rc 1)]) := rfl

theorem handleJoinGame_notFound (s : ServerState) (sid rc : String) (pn : Option String)
    (h : mapGet s.games rc = none) :
    handleJoinGame s sid rc pn = (s, [Emit.toSocket sid (OutEvent.errorEv "Room not found")]) := by
  unfold handleJoinGame
  rw [h]

theorem handleJoinGame_full (s : ServerState) (sid rc : String) (pn : Option String)
    (g : GameState) (h : mapGet s.games rc = some g)
    (h2 : g.players2 ≠ none) (h3 : g.players3 ≠ none) :
    handleJoinGame s sid rc pn = (s, [Emit.toSocket sid (OutEvent.errorEv "Room is full")]) := by
  unfold handleJoinGame
  rw [h]
  have e2 : playersGet g 2 = g.players2 := rfl
  have e3 : playersGet g 3 = g.players3 := rfl
  simp only [e2, e3, if_neg h2, if_neg h3]

theorem handleJoinGame_seat2 (s : ServerState) (sid rc : String) (pn : Option String)
    (g : GameState) (h : mapGet s.games rc = some g) (h2 : g.players2 = none) :
    handleJoinGame s sid rc pn =
      ({ s with
          games := mapSet s.games rc
            (playersSet g 2 (some { id := sid, name := jsOr pn "Player 2", ready := false }))
          players := mapSet s.players sid { playerId := 2, roomId := rc, name := pn } },
       [Emit.toSocket sid (OutEvent.gameJoined 2),
        Emit.toRoom rc (OutEvent.playerJoined 2)]) := by
  unfold handleJoinGame
  rw [h]
  have e2 : playersGet g 2 = g.players2 := rfl
  simp only [e2, if_pos h2]
  rfl

theorem handleJoinGame_seat3 (s : ServerState) (sid rc : String) (pn : Option String)
    (g : GameState) (h : mapGet s.games rc = some g)
    (h2 : g.players2 ≠ none) (h3 : g.players3 = none) :
    handleJoinGame s sid rc pn =
      ({ s with
          games := mapSet s.games rc
            (playersSet g 3 (some { id := sid, name := jsOr pn "Player 3", ready := false }))
          players := mapSet s.players sid { playerId := 3, roomId := rc, name := pn } },
       [Emit.toSocket sid (OutEvent.gameJoined 3),
        Emit.toRoom rc (OutEvent.playerJoined 3)]) := by
  unfold handleJoinGame
  rw [h]
  have e2 : playersGet g 2 = g.players2 := rfl
  have e3 : playersGet g 3 = g.players3 := rfl
  simp only [e2, e3, if_neg h2, if_pos h3]
  rfl

theorem advanceTurn_none (s : ServerState) (rc : String) (now : Nat)
    (h : mapGet s.games rc = none) : advanceTurn s rc now = (s, []) := by
  unfold advanceTurn
  rw [h]

theorem advanceTurn_some (s : ServerState) (rc : String) (now : Nat)
    (g : GameState) (h : mapGet s.games rc = some g) :
    advanceTurn s rc now =
      ({ s with games := mapSet s.games rc
                    ({ g with currentTurn := nextTurn g.currentTurn
                              timerEndTime := some (now + g.TIMER_DURATION * 1000) }) },
       [Emit.toRoom rc (OutEvent.turnChanged (nextTurn g.currentTurn)
          (now + g.TIMER_DURATION * 1000))]) := by
  unfold advanceTurn
  rw [h]

theorem handleStartGame_none (s : ServerState) (sid rc : String) (now : Nat)
    (h : mapGet s.games rc = none) : handleStartGame s sid rc now = (s, []) := by
  unfold handleStartGame
  rw [h]

theorem handleStartGame_some (s : ServerState) (sid rc : String) (now : Nat)
    (g : GameState) (h : mapGet s.games rc = some g) :
    handleStartGame s sid rc now =
      ({ s with
          games := mapSet s.games rc
            ({ g with timerEndTime := some (now + g.TIMER_DURATION * 1000), currentTurn := 1 })
          intervals := s.intervals ++ [rc] },
       [Emit.toRoom rc (OutEvent.gameStarted (now + g.TIMER_DURATION * 1000))]) := by
  unfold handleStartGame
  rw [h]


theorem handleSelectPlayer_noGame (s : ServerState) (sid rc pos : String)
    (pd : JSValue) (now : Nat) (h : mapGet s.games rc = none) :
    handleSelectPlayer s sid rc pos pd now = (s, []) := by
  unfold handleSelectPlayer
  rw [h]

theorem handleSelectPlayer_noPlayer (s : ServerState) (sid rc pos : String)
    (pd : JSValue) (now : Nat) (h : mapGet s.players sid = none) :
    handleSelectPlayer s sid rc pos pd now = (s, []) := by
  unfold handleSelectPlayer
  rw [h]
  cases hg : mapGet s.games rc <;> rfl

theorem handleSelectPlayer_notYourTurn (s : ServerState) (sid rc pos : String)
    (pd : JSValue) (now : Nat) (g : GameState) (pl : ParticipantRecord)
    (hg : mapGet s.games rc = some g) (hp : mapGet s.players sid = some pl)
    (hne : g.currentTurn ≠ pl.playerId) :
    handleSelectPlayer s sid rc pos pd now =
      (s, [Emit.toSocket sid (OutEvent.errorEv "Not your turn")]) := by
  unfold handleSelectPlayer
  rw [hg, hp]
  dsimp only
  rw [if_pos hne]

theorem handleSelectPlayer_filled (s : ServerState) (sid rc pos : String)
    (pd : JSValue) (now : Nat) (g : GameState) (pl : ParticipantRecord)
    (hg : mapGet s.games rc = some g) (hp : mapGet s.players sid = some pl)
    (heq : g.currentTurn = pl.playerId)
    (ht : truthy (jsIndex (rostersGet g pl.playerId) pos) = true) :
    handleSelectPlayer s sid rc pos pd now =
      (s, [Emit.toSocket sid (OutEvent.errorEv "Position already filled")]) := by
  unfold handleSelectPlayer
  rw [hg, hp]
  dsimp only
  rw [if_neg (not_not_intro heq), if_pos ht]

theorem handleSelectPlayer_success (s : ServerState) (sid rc pos : String)
    (pd : JSValue) (now : Nat) (g : GameState) (pl : ParticipantRecord)
    (hg : mapGet s.games rc = some g) (hp : mapGet s.players sid = some pl)
    (heq : g.currentTurn = pl.playerId)
    (ht : truthy (jsIndex (rostersGet g pl.playerId) pos) = false) :
    handleSelectPlayer s sid rc pos pd now =
      ({ s with games := mapSet s.games rc
                    ({ rostersSet g pl.playerId (mapSet (rostersGet g pl.playerId) pos pd) with
                        currentTurn := nextTurn g.currentTurn
                        timerEndTime := some (now + g.TIMER_DURATION * 1000) }) },
       [Emit.toRoom rc (OutEvent.playerSelected pl.playerId pos),
        Emit.toRoom rc (OutEvent.turnChanged (nextTurn g.currentTurn)
          (now + g.TIMER_DURATION * 1000))]) := by
  unfold handleSelectPlayer
  rw [hg, hp]
  dsimp only
  rw [if_neg (not_not_intro heq), if_neg (by rw [ht]; exact Bool.false_ne_true)]
  rw [advanceTurn_some _ rc now
        (rostersSet g pl.playerId (mapSet (rostersGet g pl.playerId) pos pd))
        (mapGet_mapSet_eq _ _ _)]
  simp [mapSet_mapSet]

theorem handleSkipTurn_noGame (s : ServerState) (sid rc : String) (now : Nat)
    (h : mapGet s.games rc = none) : handleSkipTurn s sid rc now = (s, []) := by
  unfold handleSkipTurn
  rw [h]

theorem handleSkipTurn_noPlayer (s : ServerState) (sid rc : String) (now : Nat)
    (h : mapGet s.players sid = none) : handleSkipTurn s sid rc now = (s, []) := by
  unfold handleSkipTurn
  rw [h]
  cases hg : mapGet s.games rc <;> rfl

theorem handleSkipTurn_notYourTurn (s : ServerState) (sid rc : String) (now : Nat)
    (g : GameState) (pl : ParticipantRecord)
    (hg : mapGet s.games rc = some g) (hp : mapGet s.players sid = some pl)
    (hne : g.currentTurn ≠ pl.playerId) : handleSkipTurn s sid rc now = (s, []) := by
  unfold handleSkipTurn
  rw [hg, hp]
  dsimp only
  rw [if_neg hne]

theorem handleSkipTurn_isTurn (s : ServerState) (sid rc : String) (now : Nat)
    (g : GameState) (pl : ParticipantRecord)
    (hg : mapGet s.games rc = some g) (hp : mapGet s.players sid = some pl)
    (heq : g.currentTurn = pl.playerId) :
    handleSkipTurn s sid rc now =
      ({ s with games := mapSet s.games rc
                    ({ g with currentTurn := nextTurn g.currentTurn
                              timerEndTime := some (now + g.TIMER_DURATION * 1000) }) },
       [Emit.toRoom rc (OutEvent.turnChanged (nextTurn g.currentTurn)
          (now + g.TIMER_DURATION * 1000)),
        Emit.toRoom rc OutEvent.turnSkipped]) := by
  unfold handleSkipTurn
  rw [hg, hp]
  dsimp only
  rw [if_pos heq]
  rw [advanceTurn_some s rc now g hg]
  rfl

theorem handleDisconnect_noRecord (s : ServerState) (sid : String)
    (h : mapGet s.players sid = none) : handleDisconnect s sid = (s, []) := by
  unfold handleDisconnect
  rw [h]

theorem handleDisconnect_noRoom (s : ServerState) (sid : String)
    (pl : ParticipantRecord) (hp : mapGet s.players sid = some pl)
    (hg : mapGet s.games pl.roomId = none) :
    handleDisconnect s sid = ({ s with players := mapDelete s.players sid }, []) := by
  unfold handleDisconnect
  rw [hp]
  dsimp only
  rw [hg]

theorem handleDisconnect_seated (s : ServerState) (sid : String)
    (pl : ParticipantRecord) (g : GameState)
    (hp : mapGet s.players sid = some pl) (hg : mapGet s.games pl.roomId = some g) :
    handleDisconnect s sid =
      ({ s with
          games := mapSet s.games pl.roomId (playersSet g pl.playerId none)
          players := mapDelete s.players sid },
       [Emit.toRoom pl.roomId (OutEvent.playerDisconnected pl.playerId)]) := by
  unfold handleDisconnect
  rw [hp]
  dsimp only
  rw [hg]

theorem tick_noGame (s : ServerState) (rc : String) (now : Nat)
    (h : mapGet s.games rc = none) :
    tick s rc now = ({ s with intervals := s.intervals.erase rc }, []) := by
  unfold tick
  rw [h]

theorem tick_timerCleared (s : ServerState) (rc : String) (now : Nat)
    (g : GameState) (hg : mapGet s.games rc = some g)
    (ht : timerFalsy g.timerEndTime = true) :
    tick s rc now = ({ s with intervals := s.intervals.erase rc }, []) := by
  unfold tick
  rw [hg]
  dsimp only
  rw [if_pos ht]

theorem tick_running (s : ServerState) (rc : String) (now : Nat)
    (g : GameState) (e : Nat) (hg : mapGet s.games rc = some g)
    (he : g.timerEndTime = some e) (hgt : now < e) :
    tick s rc now =
      (s, [Emit.toRoom rc (OutEvent.timerUpdate ((e : Int) - (now : Int)) g.currentTurn)]) := by
  have hf : timerFalsy g.timerEndTime = false := by
    rw [he]
    simp only [timerFalsy, decide_eq_false_iff_not]
    omega
  unfold tick
  rw [hg]
  dsimp only
  rw [if_neg (by rw [hf]; exact Bool.false_ne_true)]
  rw [he]
  dsimp only [Option.getD_some]
  rw [max_eq_right (by omega : (0 : Int) ≤ (e : Int) - (now : Int))]
  rw [if_neg (by omega : ¬ ((e : Int) - (now : Int) ≤ 0))]

theorem tick_expired (s : ServerState) (rc : String) (now : Nat)
    (g : GameState) (e : Nat) (hg : mapGet s.games rc = some g)
    (he : g.timerEndTime = some e) (hne : e ≠ 0) (hle : e ≤ now) :
    tick s rc now =
      ({ s with games := mapSet s.games rc
                    ({ g with currentTurn := nextTurn g.currentTurn
                              timerEndTime := some (now + g.TIMER_DURATION * 1000) }) },
       [Emit.toRoom rc (OutEvent.timerUpdate 0 g.currentTurn),
        Emit.toRoom rc (OutEvent.turnChanged (nextTurn g.currentTurn)
          (now + g.TIMER_DURATION * 1000))]) := by
  have hf : timerFalsy g.timerEndTime = false := by
    rw [he]
    simp only [timerFalsy, decide_eq_false_iff_not]
    omega
  unfold tick
  rw [hg]
  dsimp only
  rw [if_neg (by rw [hf]; exact Bool.false_ne_true)]
  rw [he]
  dsimp only [Option.getD_some]
  rw [max_eq_left (by omega : (e : Int) - (now : Int) ≤ 0)]
  rw [if_pos (le_refl (0 : Int))]
  rw [advanceTurn_some s rc now g hg]

/-! ### The currentTurn invariant over all reachable states -/

theorem nextTurn_valid (t : Nat) (h : t = 1 ∨ t = 2 ∨ t = 3) :
    nextTurn t = 1 ∨ nextTurn t = 2 ∨ nextTurn t = 3 := by
  rcases h with h | h | h <;> subst h <;> decide

theorem timerFalsy_eq_false (o : Option Nat) (h : timerFalsy o = false) :
    ∃ e, o = some e ∧ e ≠ 0 := by
  cases o with
  | none => exact absurd h (by decide)
  | some n =>
    refine ⟨n, rfl, ?_⟩
    simpa [timerFalsy] using h

/-- Every room in the registry has `currentTurn` in `{1, 2, 3}`. -/
def TurnsValid (s : ServerState) : Prop :=
  ∀ rc g, mapGet s.games rc = some g →
    g.currentTurn = 1 ∨ g.currentTurn = 2 ∨ g.currentTurn = 3

theorem initState_turnsValid : TurnsValid initState := by
  intro rc g h
  exact Option.noConfusion h

theorem advanceTurn_turnsValid (s : ServerState) (rc : String) (now : Nat)
    (hs : TurnsValid s) : TurnsValid (advanceTurn s rc now).1 := by
  cases hg : mapGet s.games rc with
  | none =>
    rw [advanceTurn_none s rc now hg]
    exact hs
  | some g =>
    rw [advanceTurn_some s rc now g hg]
    intro rc2 g2 h2
    rcases mapGet_mapSet_cases _ _ _ _ _ h2 with ⟨_, rfl⟩ | ⟨_, hold⟩
    · exact nextTurn_valid _ (hs rc g hg)
    · exact hs rc2 g2 hold

theorem handleCreateGame_turnsValid (s : ServerState) (sid : String) (pn : Option String)
    (rc : String) (hs : TurnsValid s) : TurnsValid (handleCreateGame s sid pn rc).1 := by
  rw [handleCreateGame_eq]
  intro rc2 g2 h2
  rcases mapGet_mapSet_cases _ _ _ _ _ h2 with ⟨_, rfl⟩ | ⟨_, hold⟩
  · exact Or.inl rfl
  · exact hs rc2 g2 hold

theorem handleJoinGame_turnsValid (s : ServerState) (sid rc : String) (pn : Option String)
    (hs : TurnsValid s) : TurnsValid (handleJoinGame s sid rc pn).1 := by
  cases hg : mapGet s.games rc with
  | none =>
    rw [handleJoinGame_notFound s sid rc pn hg]
    exact hs
  | some g =>
    by_cases h2 : g.players2 = none
    · rw [handleJoinGame_seat2 s sid rc pn g hg h2]
      intro rc2 g2 hg2
      rcases mapGet_mapSet_cases _ _ _ _ _ hg2 with ⟨_, rfl⟩ | ⟨_, hold⟩
      · simpa using hs rc g hg
      · exact hs rc2 g2 hold
    · by_cases h3 : g.players3 = none
      · rw [handleJoinGame_seat3 s sid rc pn g hg h2 h3]
        intro rc2 g2 hg2
        rcases mapGet_mapSet_cases _ _ _ _ _ hg2 with ⟨_, rfl⟩ | ⟨_, hold⟩
        · simpa using hs rc g hg
        · exact hs rc2 g2 hold
      · rw [handleJoinGame_full s sid rc pn g hg h2 h3]
        exact hs

theorem handleStartGame_turnsValid (s : ServerState) (sid rc : String) (now : Nat)
    (hs : TurnsValid s) : TurnsValid (handleStartGame s sid rc now).1 := by
  cases hg : mapGet s.games rc with
  | none =>
    rw [handleStartGame_none s sid rc now hg]
    exact hs
  | some g =>
    rw [handleStartGame_some s sid rc now g hg]
    intro rc2 g2 hg2
    rcases mapGet_mapSet_cases _ _ _ _ _ hg2 with ⟨_, rfl⟩ | ⟨_, hold⟩
    · exact Or.inl rfl
    · exact hs rc2 g2 hold

theorem handleSelectPlayer_turnsValid (s : ServerState) (sid rc pos : String)
    (pd : JSValue) (now : Nat) (hs : TurnsValid s) :
    TurnsValid (handleSelectPlayer s sid rc pos pd now).1 := by
  cases hg : mapGet s.games rc with
  | none =>
    rw [handleSelectPlayer_noGame s sid rc pos pd now hg]
    exact hs
  | some g =>
    cases hp : mapGet s.players sid with
    | none =>
      rw [handleSelectPlayer_noPlayer s sid rc pos pd now hp]
      exact hs
    | some pl =>
      by_cases heq : g.currentTurn = pl.playerId
      · cases ht : truthy (jsIndex (rostersGet g pl.playerId) pos) with
        | true =>
          rw [handleSelectPlayer_filled s sid rc pos pd now g pl hg hp heq ht]
          exact hs
        | false =>
          rw [handleSelectPlayer_success s sid rc pos pd now g pl hg hp heq ht]
          intro rc2 g2 hg2
          rcases mapGet_mapSet_cases _ _ _ _ _ hg2 with ⟨_, rfl⟩ | ⟨_, hold⟩
          · exact nextTurn_valid _ (hs rc g hg)
          · exact hs rc2 g2 hold
      · rw [handleSelectPlayer_notYourTurn s sid rc pos pd now g pl hg hp heq]
        exact hs

theorem handleSkipTurn_turnsValid (s : ServerState) (sid rc : String) (now : Nat)
    (hs : TurnsValid s) : TurnsValid (handleSkipTurn s sid rc now).1 := by
  cases hg : mapGet s.games rc with
  | none =>
    rw [handleSkipTurn_noGame s sid rc now hg]
    exact hs
  | some g =>
    cases hp : mapGet s.players sid with
    | none =>
      rw [handleSkipTurn_noPlayer s sid rc now hp]
      exact hs
    | some pl =>
      by_cases heq : g.currentTurn = pl.playerId
      · rw [handleSkipTurn_isTurn s sid rc now g pl hg hp heq]
        intro rc2 g2 hg2
        rcases mapGet_mapSet_cases _ _ _ _ _ hg2 with ⟨_, rfl⟩ | ⟨_, hold⟩
        · exact nextTurn_valid _ (hs rc g hg)
        · exact hs rc2 g2 hold
      · rw [handleSkipTurn_notYourTurn s sid rc now g pl hg hp heq]
        exact hs

theorem handleDisconnect_turnsValid (s : ServerState) (sid : String)
    (hs : TurnsValid s) : TurnsValid (handleDisconnect s sid).1 := by
  cases hp : mapGet s.players sid with
  | none =>
    rw [handleDisconnect_noRecord s sid hp]
    exact hs
  | some pl =>
    cases hg : mapGet s.games pl.roomId with
    | none =>
      rw [handleDisconnect_noRoom s sid pl hp hg]
      exact hs
    | some g =>
      rw [handleDisconnect_seated s sid pl g hp hg]
      intro rc2 g2 hg2
      rcases mapGet_mapSet_cases _ _ _ _ _ hg2 with ⟨_, rfl⟩ | ⟨_, hold⟩
      · simpa using hs pl.roomId g hg
      · exact hs rc2 g2 hold

theorem tick_turnsValid (s : ServerState) (rc : String) (now : Nat)
    (hs : TurnsValid s) : TurnsValid (tick s rc now).1 := by
  cases hg : mapGet s.games rc with
  | none =>
    rw [tick_noGame s rc now hg]
    exact hs
  | some g =>
    cases hf : timerFalsy g.timerEndTime with
    | true =>
      rw [tick_timerCleared s rc now g hg hf]
      exact hs
    | false =>
      obtain ⟨e, he, hne⟩ := timerFalsy_eq_false _ hf
      by_cases hle : e ≤ now
      · rw [tick_expired s rc now g e hg he hne hle]
        intro rc2 g2 hg2
        rcases mapGet_mapSet_cases _ _ _ _ _ hg2 with ⟨_, rfl⟩ | ⟨_, hold⟩
        · exact nextTurn_valid _ (hs rc g hg)
        · exact hs rc2 g2 hold
      · rw [tick_running s rc now g e hg he (by omega)]
        exact hs

theorem reachable_turnsValid (s : ServerState) (h : Reachable s) : TurnsValid s := by
  induction h with
  | init => exact initState_turnsValid
  | createGame s sid pn rc _ ih => exact handleCreateGame_turnsValid s sid pn rc ih
  | joinGame s sid rc pn _ ih => exact handleJoinGame_turnsValid s sid rc pn ih
  | startGame s sid rc now _ ih => exact handleStartGame_turnsValid s sid rc now ih
  | selectPlayer s sid rc pos pd now _ ih =>
      exact handleSelectPlayer_turnsValid s sid rc pos pd now ih
  | skipTurn s sid rc now _ ih => exact handleSkipTurn_turnsValid s sid rc now ih
  | disconnect s sid _ ih => exact handleDisconnect_turnsValid s sid ih
  | timerTick s rc now _ ih => exact tick_turnsValid s rc now ih

theorem nextTurn_iterate (k : Nat) : nextTurn^[k] 1 = k % 3 + 1 := by
  induction k with
  | zero => rfl
  | succ n ih =>
    rw [Function.iterate_succ_apply', ih]
    have h3 : n % 3 = 0 ∨ n % 3 = 1 ∨ n % 3 = 2 := by omega
    rcases h3 with h | h | h
    · rw [h, (show (n + 1) % 3 = 1 by omega)]
      decide
    · rw [h, (show (n + 1) % 3 = 2 by omega)]
      decide
    · rw [h, (show (n + 1) % 3 = 0 by omega)]
      decide

/-! ### Claims -/

/-- C1: For every room of every reachable server state, `currentTurn` is in
{1,2,3}; `advanceTurn` — the single chokepoint called by selection, skip and
timer expiry — maps `currentTurn` by `nextTurn`, the fixed cycle with
1 to 2, 2 to 3, 3 to 1; hence iterating advances from seat 1 visits the
seats in the exact order 1,2,3,1,2,3,... -/
theorem C1_currentTurn_cycles :
    (∀ s, Reachable s → ∀ rc g, mapGet s.games rc = some g →
        g.currentTurn = 1 ∨ g.currentTurn = 2 ∨ g.currentTurn = 3) ∧
    (∀ s rc now g, mapGet s.games rc = some g →
        advanceTurn s rc now =
          ({ s with games := mapSet s.games rc
                        ({ g with currentTurn := nextTurn g.currentTurn
                                  timerEndTime := some (now + g.TIMER_DURATION * 1000) }) },
           [Emit.toRoom rc (OutEvent.turnChanged (nextTurn g.currentTurn)
              (now + g.TIMER_DURATION * 1000))])) ∧
    (nextTurn 1 = 2 ∧ nextTurn 2 = 3 ∧ nextTurn 3 = 1) ∧
    (∀ k, nextTurn^[k] 1 = k % 3 + 1) := by
  refine ⟨reachable_turnsValid, ?_, ⟨rfl, rfl, rfl⟩, nextTurn_iterate⟩
  intro s rc now g h
  exact advanceTurn_some s rc now g h

/-- C1 witness: the invariant instantiated at the concrete reachable state
`srvA` and its room AAAAAA. -/
theorem C1_currentTurn_cycles_witness :
    gAlice.currentTurn = 1 ∨ gAlice.currentTurn = 2 ∨ gAlice.currentTurn = 3 :=
  C1_currentTurn_cycles.1 srvA
    (Reachable.createGame initState "sockA" (some "Alice") "AAAAAA" Reachable.init)
    "AAAAAA" gAlice (by rfl)

/-- C2 counterexample: seat 1 successfully selects position QB with the
falsy payload `0`; a later select by the same seat for the same position is
NOT rejected with PositionFilled — it succeeds (emitting `playerSelected`)
and replaces the stored payload.  The truthiness guard
`if (gameState.rosters[playerId][positionId])` does not protect falsy
payloads, refuting the claim for "every possible stored payload value". -/
theorem C2_falsy_payload_overwritten :
    srvSel0.2 = [Emit.toRoom "AAAAAA" (OutEvent.playerSelected 1 "QB"),
                 Emit.toRoom "AAAAAA" (OutEvent.turnChanged 2 16000)] ∧
    mapGet srvSel0.1.games "AAAAAA" = some gSel0 ∧
    mapGet gSel0.roster1 "QB" = some (JSValue.vNum 0) ∧
    mapGet srvSel0b.1.games "AAAAAA" = some gSel0b ∧
    mapGet gSel0b.roster1 "QB" = some (JSValue.vStr "overwritten") ∧
    srvSel0b.2 = [Emit.toRoom "AAAAAA" (OutEvent.playerSelected 1 "QB"),
                  Emit.toRoom "AAAAAA" (OutEvent.turnChanged 2 18000)] := by
  exact ⟨rfl, rfl, rfl, rfl, rfl, rfl⟩

/-- C2 amended: once `rosters[seat][positionId]` holds a TRUTHY payload, any
later select by that seat for the same position is rejected without any
state change — with PositionFilled when it is that seat's turn (and with
NotYourTurn otherwise) — so the stored payload is unchanged. -/
theorem C2_truthy_payload_immutable :
    ∀ s sid rc pos pd now g pl,
      mapGet s.games rc = some g → mapGet s.players sid = some pl →
      truthy (jsIndex (rostersGet g pl.playerId) pos) = true →
      (handleSelectPlayer s sid rc pos pd now).1 = s ∧
      (g.currentTurn = pl.playerId →
        handleSelectPlayer s sid rc pos pd now =
          (s, [Emit.toSocket sid (OutEvent.errorEv "Position already filled")])) ∧
      (g.currentTurn ≠ pl.playerId →
        handleSelectPlayer s sid rc pos pd now =
          (s, [Emit.toSocket sid (OutEvent.errorEv "Not your turn")])) := by
  intro s sid rc pos pd now g pl hg hp ht
  by_cases heq : g.currentTurn = pl.playerId
  · have h1 := handleSelectPlayer_filled s sid rc pos pd now g pl hg hp heq ht
    exact ⟨by rw [h1], fun _ => h1, fun hne => absurd heq hne⟩
  · have h1 := handleSelectPlayer_notYourTurn s sid rc pos pd now g pl hg hp heq
    exact ⟨by rw [h1], fun he => absurd he heq, fun _ => h1⟩

/-- C2 witness: with a truthy object payload stored for QB and the turn
back at seat 1, a repeat select is rejected with PositionFilled and the
state is untouched. -/
theorem C2_truthy_payload_immutable_witness :
    handleSelectPlayer srvSel1Start "sockA" "AAAAAA" "QB" (JSValue.vObj 2) 9999 =
      (srvSel1Start, [Emit.toSocket "sockA" (OutEvent.errorEv "Position already filled")]) :=
  (C2_truthy_payload_immutable srvSel1Start "sockA" "AAAAAA" "QB" (JSValue.vObj 2) 9999
      gSel1Start { playerId := 1, roomId := "AAAAAA", name := some "Alice" }
      (by rfl) (by rfl) (by rfl)).2.1 (by rfl)

/-- C3 counterexample: seat 2 issues `skipTurn` while `currentTurn = 1`.
The room state is unchanged and nothing is broadcast, but — contrary to
the claim — NO NotYourTurn error is sent to the sender either: the emit
list is empty. -/
theorem C3_skip_out_of_turn_is_silent :
    mapGet srvAB.games "AAAAAA" = some gAliceBob ∧
    gAliceBob.currentTurn = 1 ∧
    mapGet srvAB.players "sockB" =
      some { playerId := 2, roomId := "AAAAAA", name := some "Bob" } ∧
    handleSkipTurn srvAB "sockB" "AAAAAA" 500 = (srvAB, []) := by
  exact ⟨rfl, rfl, rfl, rfl⟩

/-- C3 amended: an out-of-turn `select` fails with a NotYourTurn error sent
to the sender only; an out-of-turn `skip` is a silent no-op (no error).  In
both cases no state is mutated and nothing is broadcast to the room. -/
theorem C3_turn_gating :
    ∀ s sid rc pos pd now g pl,
      mapGet s.games rc = some g → mapGet s.players sid = some pl →
      g.currentTurn ≠ pl.playerId →
      handleSelectPlayer s sid rc pos pd now =
        (s, [Emit.toSocket sid (OutEvent.errorEv "Not your turn")]) ∧
      handleSkipTurn s sid rc now = (s, []) := by
  intro s sid rc pos pd now g pl hg hp hne
  exact ⟨handleSelectPlayer_notYourTurn s sid rc pos pd now g pl hg hp hne,
         handleSkipTurn_notYourTurn s sid rc now g pl hg hp hne⟩

/-- C3 witness: seat 2 acting while it is seat 1's turn. -/
theorem C3_turn_gating_witness :
    handleSelectPlayer srvAB "sockB" "AAAAAA" "QB" (JSValue.vObj 3) 500 =
      (srvAB, [Emit.toSocket "sockB" (OutEvent.errorEv "Not your turn")]) ∧
    handleSkipTurn srvAB "sockB" "AAAAAA" 500 = (srvAB, []) :=
  C3_turn_gating srvAB "sockB" "AAAAAA" "QB" (JSValue.vObj 3) 500 gAliceBob
    { playerId := 2, roomId := "AAAAAA", name := some "Bob" }
    (by rfl) (by rfl) (by decide)

/-- C4: `generateRoomCode` draws `Math.random` tokens with no uniqueness
check against the registry, and `createGame` inserts with `games.set`
unconditionally.  When a second createGame draws an already-active code,
the existing RoomState is overwritten and destroyed: after the collision
the registry holds a single room AAAAAA whose seat 1 is Bob, not Alice. -/
theorem C4_collision_overwrites_room :
    mapGet srvA.games "AAAAAA" = some gAlice ∧
    gAlice.players1 = some { id := "sockA", name := "Alice", ready := false } ∧
    mapGet srvColl.games "AAAAAA" = some gBobOverA ∧
    gBobOverA.players1 = some { id := "sockB", name := "Bob", ready := false } ∧
    srvColl.games = [("AAAAAA", gBobOverA)] := by
  exact ⟨rfl, rfl, rfl, rfl, rfl⟩

/-- C5: joinGame fails with "Room not found" when the code is absent,
fails with "Room is full" when neither seat 2 nor seat 3 is `null`, and
otherwise occupies the lowest-numbered empty seat, 2 before 3. -/
theorem C5_joinGame_seating :
    ∀ s sid rc pn,
      (mapGet s.games rc = none →
        handleJoinGame s sid rc pn =
          (s, [Emit.toSocket sid (OutEvent.errorEv "Room not found")])) ∧
      (∀ g, mapGet s.games rc = some g → g.players2 ≠ none → g.players3 ≠ none →
        handleJoinGame s sid rc pn =
          (s, [Emit.toSocket sid (OutEvent.errorEv "Room is full")])) ∧
      (∀ g, mapGet s.games rc = some g → g.players2 = none →
        handleJoinGame s sid rc pn =
          ({ s with
              games := mapSet s.games rc
                (playersSet g 2 (some { id := sid, name := jsOr pn "Player 2", ready := false }))
              players := mapSet s.players sid { playerId := 2, roomId := rc, name := pn } },
           [Emit.toSocket sid (OutEvent.gameJoined 2),
            Emit.toRoom rc (OutEvent.playerJoined 2)])) ∧
      (∀ g, mapGet s.games rc = some g → g.players2 ≠ none → g.players3 = none →
        handleJoinGame s sid rc pn =
          ({ s with
              games := mapSet s.games rc
                (playersSet g 3 (some { id := sid, name := jsOr pn "Player 3", ready := false }))
              players := mapSet s.players sid { playerId := 3, roomId := rc, name := pn } },
           [Emit.toSocket sid (OutEvent.gameJoined 3),
            Emit.toRoom rc (OutEvent.playerJoined 3)])) := by
  intro s sid rc pn
  exact ⟨handleJoinGame_notFound s sid rc pn,
         fun g hg h2 h3 => handleJoinGame_full s sid rc pn g hg h2 h3,
         fun g hg h2 => handleJoinGame_seat2 s sid rc pn g hg h2,
         fun g hg h2 h3 => handleJoinGame_seat3 s sid rc pn g hg h2 h3⟩

/-- C5 witness, scenario B: Bob then Cara join Alice's one-occupant room
and receive seats 2 and 3; Dan's join of the full room fails with
"Room is full". -/
theorem C5_joinGame_seating_witness :
    (handleJoinGame srvA "sockB" "AAAAAA" (some "Bob")).2 =
      [Emit.toSocket "sockB" (OutEvent.gameJoined 2),
       Emit.toRoom "AAAAAA" (OutEvent.playerJoined 2)] ∧
    (handleJoinGame srvAB "sockC" "AAAAAA" (some "Cara")).2 =
      [Emit.toSocket "sockC" (OutEvent.gameJoined 3),
       Emit.toRoom "AAAAAA" (OutEvent.playerJoined 3)] ∧
    handleJoinGame srvABC "sockD" "AAAAAA" (some "Dan") =
      (srvABC, [Emit.toSocket "sockD" (OutEvent.errorEv "Room is full")]) := by
  refine ⟨?_, ?_, ?_⟩
  · rw [(C5_joinGame_seating srvA "sockB" "AAAAAA" (some "Bob")).2.2.1 gAlice
        (by rfl) (by rfl)]
  · rw [(C5_joinGame_seating srvAB "sockC" "AAAAAA" (some "Cara")).2.2.2 gAliceBob
        (by rfl) (by decide) (by rfl)]
  · exact (C5_joinGame_seating srvABC "sockD" "AAAAAA" (some "Dan")).2.1 gABC
      (by rfl) (by decide) (by decide)

/-- C6: domain errors are emitted only by joinGame and selectPlayer; when
one is emitted it is a single `socket.emit` to the originating connection
and the server state is exactly as before; no other handler (createGame,
startGame, skipTurn, disconnect, timer tick) ever emits an error. -/
theorem C6_errors_local_and_pure :
    ∀ s sid rc pos pd pn now,
      ((handleJoinGame s sid rc pn).2.any isErrorEmit = true →
        (handleJoinGame s sid rc pn).1 = s ∧
        ∃ msg, (handleJoinGame s sid rc pn).2 = [Emit.toSocket sid (OutEvent.errorEv msg)]) ∧
      ((handleSelectPlayer s sid rc pos pd now).2.any isErrorEmit = true →
        (handleSelectPlayer s sid rc pos pd now).1 = s ∧
        ∃ msg, (handleSelectPlayer s sid rc pos pd now).2 =
          [Emit.toSocket sid (OutEvent.errorEv msg)]) ∧
      (handleCreateGame s sid pn rc).2.any isErrorEmit = false ∧
      (handleStartGame s sid rc now).2.any isErrorEmit = false ∧
      (handleSkipTurn s sid rc now).2.any isErrorEmit = false ∧
      (handleDisconnect s sid).2.any isErrorEmit = false ∧
      (tick s rc now).2.any isErrorEmit = false := by
  intro s sid rc pos pd pn now
  refine ⟨?_, ?_, ?_, ?_, ?_, ?_, ?_⟩
  · -- joinGame
    cases hg : mapGet s.games rc with
    | none =>
      rw [handleJoinGame_notFound s sid rc pn hg]
      exact fun _ => ⟨rfl, "Room not found", rfl⟩
    | some g =>
      by_cases h2 : g.players2 = none
      · rw [handleJoinGame_seat2 s sid rc pn g hg h2]
        intro hc
        exact Bool.noConfusion hc
      · by_cases h3 : g.players3 = none
        · rw [handleJoinGame_seat3 s sid rc pn g hg h2 h3]
          intro hc
          exact Bool.noConfusion hc
        · rw [handleJoinGame_full s sid rc pn g hg h2 h3]
          exact fun _ => ⟨rfl, "Room is full", rfl⟩
  · -- selectPlayer
    cases hg : mapGet s.games rc with
    | none =>
      rw [handleSelectPlayer_noGame s sid rc pos pd now hg]
      intro hc
      exact Bool.noConfusion hc
    | some g =>
      cases hp : mapGet s.players sid with
      | none =>
        rw [handleSelectPlayer_noPlayer s sid rc pos pd now hp]
        intro hc
        exact Bool.noConfusion hc
      | some pl =>
        by_cases heq : g.currentTurn = pl.playerId
        · cases ht : truthy (jsIndex (rostersGet g pl.playerId) pos) with
          | true =>
            rw [handleSelectPlayer_filled s sid rc pos pd now g pl hg hp heq ht]
            exact fun _ => ⟨rfl, "Position already filled", rfl⟩
          | false =>
            rw [handleSelectPlayer_success s sid rc pos pd now g pl hg hp heq ht]
            intro hc
            exact Bool.noConfusion hc
        · rw [handleSelectPlayer_notYourTurn s sid rc pos pd now g pl hg hp heq]
          exact fun _ => ⟨rfl, "Not your turn", rfl⟩
  · -- createGame
    rw [handleCreateGame_eq]
    rfl
  · -- startGame
    cases hg : mapGet s.games rc with
    | none => rw [handleStartGame_none s sid rc now hg]; rfl
    | some g => rw [handleStartGame_some s sid rc now g hg]; rfl
  · -- skipTurn
    cases hg : mapGet s.games rc with
    | none => rw [handleSkipTurn_noGame s sid rc now hg]; rfl
    | some g =>
      cases hp : mapGet s.players sid with
      | none => rw [handleSkipTurn_noPlayer s sid rc now hp]; rfl
      | some pl =>
        by_cases heq : g.currentTurn = pl.playerId
        · rw [handleSkipTurn_isTurn s sid rc now g pl hg hp heq]; rfl
        · rw [handleSkipTurn_notYourTurn s sid rc now g pl hg hp heq]; rfl
  · -- disconnect
    cases hp : mapGet s.players sid with
    | none => rw [handleDisconnect_noRecord s sid hp]; rfl
    | some pl =>
      cases hg : mapGet s.games pl.roomId with
      | none => rw [handleDisconnect_noRoom s sid pl hp hg]; rfl
      | some g => rw [handleDisconnect_seated s sid pl g hp hg]; rfl
  · -- tick
    cases hg : mapGet s.games rc with
    | none => rw [tick_noGame s rc now hg]; rfl
    | some g =>
      cases hf : timerFalsy g.timerEndTime with
      | true => rw [tick_timerCleared s rc now g hg hf]; rfl
      | false =>
        obtain ⟨e, he, hne⟩ := timerFalsy_eq_false _ hf
        by_cases hle : e ≤ now
        · rw [tick_expired s rc now g e hg he hne hle]; rfl
        · rw [tick_running s rc now g e hg he (by omega)]; rfl

/-- C6 witness: a join of a nonexistent room leaves the (initial) server
state unchanged. -/
theorem C6_errors_local_and_pure_witness :
    (handleJoinGame initState "sockZ" "NOROOM" none).1 = initState :=
  ((C6_errors_local_and_pure initState "sockZ" "NOROOM" "QB" JSValue.vNull none 0).1
    (by rfl)).1

/-- C7 counterexample: startGame calls `startTimerBroadcast(roomCode)`
unconditionally, so a second startGame on room AAAAAA — whose countdown
loop is already live — spawns a second loop: the room now has two live
`setInterval` loops. -/
theorem C7_duplicate_timer_loop :
    srvStart1.intervals = ["AAAAAA"] ∧
    srvStart2.intervals = ["AAAAAA", "AAAAAA"] := by
  exact ⟨rfl, rfl⟩

/-- C7 amended: every startGame on an existing room spawns a fresh
countdown loop, so duplicate loops per room do occur.  Nevertheless each
deadline expiry advances the turn at most once: the tick that fires at or
after the deadline advances the turn and resets the deadline to
`now + TIMER_DURATION * 1000`, and any tick (from any loop) that runs
strictly before the room's current deadline broadcasts `timerUpdate` only
and leaves the server state untouched. -/
theorem C7_timer_loops :
    (∀ s sid rc now g, mapGet s.games rc = some g →
        (handleStartGame s sid rc now).1.intervals = s.intervals ++ [rc]) ∧
    (∀ s rc now g e, mapGet s.games rc = some g → g.timerEndTime = some e →
        e ≠ 0 → e ≤ now →
        (tick s rc now).1 =
          { s with games := mapSet s.games rc
                      ({ g with currentTurn := nextTurn g.currentTurn
                                timerEndTime := some (now + g.TIMER_DURATION * 1000) }) }) ∧
    (∀ s rc now2 g e, mapGet s.games rc = some g → g.timerEndTime = some e →
        now2 < e →
        tick s rc now2 =
          (s, [Emit.toRoom rc (OutEvent.timerUpdate ((e : Int) - (now2 : Int))
                 g.currentTurn)])) := by
  refine ⟨?_, ?_, ?_⟩
  · intro s sid rc now g hg
    rw [handleStartGame_some s sid rc now g hg]
  · intro s rc now g e hg he hne hle
    rw [tick_expired s rc now g e hg he hne hle]
  · intro s rc now2 g e hg he hlt
    exact tick_running s rc now2 g e hg he hlt

/-- C7 witness: on the started room (deadline 15000), the tick at 15000
advances the turn and resets the deadline to 30000; a second loop's tick
at 15001 then changes nothing. -/
theorem C7_timer_loops_witness :
    (handleStartGame srvA "sockA" "AAAAAA" 0).1.intervals = srvA.intervals ++ ["AAAAAA"] ∧
    (tick srvStart1 "AAAAAA" 15000).1 =
      { srvStart1 with games := mapSet srvStart1.games "AAAAAA"
                            ({ gStart1 with currentTurn := nextTurn gStart1.currentTurn
                                            timerEndTime := some (15000 + gStart1.TIMER_DURATION * 1000) }) } ∧
    tick srvTickA "AAAAAA" 15001 =
      (srvTickA, [Emit.toRoom "AAAAAA" (OutEvent.timerUpdate ((30000 : Int) - (15001 : Int))
                    gTickA.currentTurn)]) :=
  ⟨C7_timer_loops.1 srvA "sockA" "AAAAAA" 0 gAlice (by rfl),
   C7_timer_loops.2.1 srvStart1 "AAAAAA" 15000 gStart1 15000 (by rfl) (by rfl)
     (by decide) (by decide),
   C7_timer_loops.2.2 srvTickA "AAAAAA" 15001 gTickA 30000 (by rfl) (by rfl) (by decide)⟩

/-- C8 counterexample: Alice is seated in room AAAAAA (her participant
record's roomId is AAAAAA), yet her selectPlayer event naming room BBBBBB
mutates room BBBBBB's roster and advances its turn: the handler never
compares the sender's roomId with the event's roomCode — it only compares
the sender's seat number with the named room's currentTurn. -/
theorem C8_cross_room_mutation :
    mapGet srvTwoRooms.players "sockA" =
      some { playerId := 1, roomId := "AAAAAA", name := some "Alice" } ∧
    mapGet srvTwoRooms.games "BBBBBB" = some gBobFresh ∧
    gBobFresh.roster1 = [] ∧
    mapGet crossSel.1.games "BBBBBB" = some gBobAfterCross ∧
    gBobAfterCross.roster1 = [("QB", JSValue.vObj 7)] ∧
    gBobAfterCross.currentTurn = 2 ∧
    crossSel.2 = [Emit.toRoom "BBBBBB" (OutEvent.playerSelected 1 "QB"),
                  Emit.toRoom "BBBBBB" (OutEvent.turnChanged 2 15500)] := by
  exact ⟨rfl, rfl, rfl, rfl, rfl, rfl, rfl⟩

/-- C8 amended: selectPlayer mutates the named room exactly when that room
exists, the sender has a participant record (in ANY room), the sender's
seat number equals the named room's currentTurn, and the stored payload at
the position is falsy; the sender's own roomId is never compared with the
event's roomCode, so a sender seated in a different room can mutate the
named room. -/
theorem C8_selectPlayer_guards :
    ∀ s sid rc pos pd now,
      (mapGet s.games rc = none → handleSelectPlayer s sid rc pos pd now = (s, [])) ∧
      (mapGet s.players sid = none → handleSelectPlayer s sid rc pos pd now = (s, [])) ∧
      (∀ g pl, mapGet s.games rc = some g → mapGet s.players sid = some pl →
        g.currentTurn ≠ pl.playerId →
        handleSelectPlayer s sid rc pos pd now =
          (s, [Emit.toSocket sid (OutEvent.errorEv "Not your turn")])) ∧
      (∀ g pl, mapGet s.games rc = some g → mapGet s.players sid = some pl →
        g.currentTurn = pl.playerId →
        truthy (jsIndex (rostersGet g pl.playerId) pos) = true →
        handleSelectPlayer s sid rc pos pd now =
          (s, [Emit.toSocket sid (OutEvent.errorEv "Position already filled")])) ∧
      (∀ g pl, mapGet s.games rc = some g → mapGet s.players sid = some pl →
        g.currentTurn = pl.playerId →
        truthy (jsIndex (rostersGet g pl.playerId) pos) = false →
        handleSelectPlayer s sid rc pos pd now =
          ({ s with games := mapSet s.games rc
                        ({ rostersSet g pl.playerId
                              (mapSet (rostersGet g pl.playerId) pos pd) with
                            currentTurn := nextTurn g.currentTurn
                            timerEndTime := some (now + g.TIMER_DURATION * 1000) }) },
           [Emit.toRoom rc (OutEvent.playerSelected pl.playerId pos),
            Emit.toRoom rc (OutEvent.turnChanged (nextTurn g.currentTurn)
              (now + g.TIMER_DURATION * 1000))])) := by
  intro s sid rc pos pd now
  exact ⟨handleSelectPlayer_noGame s sid rc pos pd now,
         handleSelectPlayer_noPlayer s sid rc pos pd now,
         fun g pl hg hp hne => handleSelectPlayer_notYourTurn s sid rc pos pd now g pl hg hp hne,
         fun g pl hg hp heq ht => handleSelectPlayer_filled s sid rc pos pd now g pl hg hp heq ht,
         fun g pl hg hp heq ht => handleSelectPlayer_success s sid rc pos pd now g pl hg hp heq ht⟩

/-- C8 witness: the success guard applied at the cross-room input — the
sender's record lives in room AAAAAA while the named room is BBBBBB. -/
theorem C8_selectPlayer_guards_witness :
    handleSelectPlayer srvTwoRooms "sockA" "BBBBBB" "QB" (JSValue.vObj 7) 500 =
      ({ srvTwoRooms with games := mapSet srvTwoRooms.games "BBBBBB"
                              ({ rostersSet gBobFresh 1
                                    (mapSet (rostersGet gBobFresh 1) "QB" (JSValue.vObj 7)) with
                                  currentTurn := nextTurn gBobFresh.currentTurn
                                  timerEndTime := some (500 + gBobFresh.TIMER_DURATION * 1000) }) },
       [Emit.toRoom "BBBBBB" (OutEvent.playerSelected 1 "QB"),
        Emit.toRoom "BBBBBB" (OutEvent.turnChanged (nextTurn gBobFresh.currentTurn)
          (500 + gBobFresh.TIMER_DURATION * 1000))]) :=
  (C8_selectPlayer_guards srvTwoRooms "sockA" "BBBBBB" "QB" (JSValue.vObj 7) 500).2.2.2.2
    gBobFresh { playerId := 1, roomId := "AAAAAA", name := some "Alice" }
    (by rfl) (by rfl) (by rfl) (by rfl)

/-- C9: disconnecting a seated connection nulls exactly its seat in its
room and deletes its participant record, with a single playerDisconnected
broadcast to that room; every other seat, every roster, currentTurn, the
deadline, every other room, and the interval list are untouched. -/
theorem C9_disconnect_frame :
    ∀ s sid pl g,
      mapGet s.players sid = some pl → mapGet s.games pl.roomId = some g →
      (pl.playerId = 1 ∨ pl.playerId = 2 ∨ pl.playerId = 3) →
      handleDisconnect s sid =
        ({ s with
            games := mapSet s.games pl.roomId (playersSet g pl.playerId none)
            players := mapDelete s.players sid },
         [Emit.toRoom pl.roomId (OutEvent.playerDisconnected pl.playerId)]) ∧
      playersGet (playersSet g pl.playerId none) pl.playerId = none ∧
      (∀ i, i ≠ pl.playerId →
        playersGet (playersSet g pl.playerId none) i = playersGet g i) ∧
      (playersSet g pl.playerId none).currentTurn = g.currentTurn ∧
      (∀ i, rostersGet (playersSet g pl.playerId none) i = rostersGet g i) ∧
      (playersSet g pl.playerId none).timerEndTime = g.timerEndTime ∧
      (handleDisconnect s sid).1.intervals = s.intervals ∧
      (∀ rc2, rc2 ≠ pl.roomId →
        mapGet (mapSet s.games pl.roomId (playersSet g pl.playerId none)) rc2 =
          mapGet s.games rc2) := by
  intro s sid pl g hp hg hid
  have hd := handleDisconnect_seated s sid pl g hp hg
  refine ⟨hd,
          playersGet_playersSet_self g pl.playerId none hid,
          fun i hi => playersGet_playersSet_ne g pl.playerId i none hi,
          by simp,
          fun i => by simp,
          by simp,
          by rw [hd],
          fun rc2 h2 => mapGet_mapSet_ne s.games pl.roomId rc2 _ h2⟩

/-- C9 witness: Bob (seat 2 of room AAAAAA) disconnects. -/
theorem C9_disconnect_frame_witness :
    handleDisconnect srvAB "sockB" =
      ({ srvAB with
          games := mapSet srvAB.games "AAAAAA" (playersSet gAliceBob 2 none)
          players := mapDelete srvAB.players "sockB" },
       [Emit.toRoom "AAAAAA" (OutEvent.playerDisconnected 2)]) :=
  (C9_disconnect_frame srvAB "sockB"
    { playerId := 2, roomId := "AAAAAA", name := some "Bob" } gAliceBob
    (by rfl) (by rfl) (by decide)).1

/-- C10: a successful select by the current-turn seat writes exactly the
one roster entry `rosters[seat][positionId]`; every other seat's roster,
every other position of the same seat, and the seats mapping are
unchanged; `currentTurn` and the deadline take exactly the values the
single following `advanceTurn` call gives them, announced by the single
`turnChanged` broadcast; the participant map, interval list, and all other
rooms are untouched. -/
theorem C10_select_success_frame :
    ∀ s sid rc pos pd now g pl,
      mapGet s.games rc = some g → mapGet s.players sid = some pl →
      g.currentTurn = pl.playerId →
      truthy (jsIndex (rostersGet g pl.playerId) pos) = false →
      (pl.playerId = 1 ∨ pl.playerId = 2 ∨ pl.playerId = 3) →
      (let g2 : GameState :=
        { rostersSet g pl.playerId (mapSet (rostersGet g pl.playerId) pos pd) with
            currentTurn := nextTurn g.currentTurn
            timerEndTime := some (now + g.TIMER_DURATION * 1000) }
      handleSelectPlayer s sid rc pos pd now =
        ({ s with games := mapSet s.games rc g2 },
         [Emit.toRoom rc (OutEvent.playerSelected pl.playerId pos),
          Emit.toRoom rc (OutEvent.turnChanged (nextTurn g.currentTurn)
            (now + g.TIMER_DURATION * 1000))]) ∧
      rostersGet g2 pl.playerId = mapSet (rostersGet g pl.playerId) pos pd ∧
      (∀ i, i ≠ pl.playerId → rostersGet g2 i = rostersGet g i) ∧
      (∀ p2, p2 ≠ pos →
        mapGet (rostersGet g2 pl.playerId) p2 = mapGet (rostersGet g pl.playerId) p2) ∧
      (∀ i, playersGet g2 i = playersGet g i) ∧
      g2.currentTurn = nextTurn g.currentTurn ∧
      g2.timerEndTime = some (now + g.TIMER_DURATION * 1000) ∧
      (handleSelectPlayer s sid rc pos pd now).1.players = s.players ∧
      (handleSelectPlayer s sid rc pos pd now).1.intervals = s.intervals ∧
      (∀ rc2, rc2 ≠ rc →
        mapGet (handleSelectPlayer s sid rc pos pd now).1.games rc2 = mapGet s.games rc2)) := by
  intro s sid rc pos pd now g pl hg hp heq ht hid
  have hs := handleSelectPlayer_success s sid rc pos pd now g pl hg hp heq ht
  have hroster :
      rostersGet ({ rostersSet g pl.playerId (mapSet (rostersGet g pl.playerId) pos pd) with
                      currentTurn := nextTurn g.currentTurn
                      timerEndTime := some (now + g.TIMER_DURATION * 1000) }) pl.playerId =
        mapSet (rostersGet g pl.playerId) pos pd :=
    rostersGet_rostersSet_self g pl.playerId _ hid
  refine ⟨hs,
          hroster,
          fun i hi => rostersGet_rostersSet_ne g pl.playerId i _ hi,
          ?_,
          fun i => playersGet_rostersSet g pl.playerId i _,
          rfl,
          rfl,
          by rw [hs],
          by rw [hs],
          ?_⟩
  · intro p2 hp2
    rw [hroster]
    exact mapGet_mapSet_ne (rostersGet g pl.playerId) pos p2 pd hp2
  · intro rc2 h2
    rw [hs]
    exact mapGet_mapSet_ne s.games rc rc2 _ h2

/-- C10 witness, scenario C: on the started room, seat 1 selects QB; the
roster gains exactly that entry, the turn becomes 2 and the deadline
resets. -/
theorem C10_select_success_frame_witness :
    handleSelectPlayer srvStartA "sockA" "AAAAAA" "QB" (JSValue.vObj 9) 2000 =
      ({ srvStartA with games := mapSet srvStartA.games "AAAAAA"
                            ({ rostersSet gStartA 1
                                  (mapSet (rostersGet gStartA 1) "QB" (JSValue.vObj 9)) with
                                currentTurn := nextTurn gStartA.currentTurn
                                timerEndTime := some (2000 + gStartA.TIMER_DURATION * 1000) }) },
       [Emit.toRoom "AAAAAA" (OutEvent.playerSelected 1 "QB"),
        Emit.toRoom "AAAAAA" (OutEvent.turnChanged (nextTurn gStartA.currentTurn)
          (2000 + gStartA.TIMER_DURATION * 1000))]) :=
  (C10_select_success_frame srvStartA "sockA" "AAAAAA" "QB" (JSValue.vObj 9) 2000 gStartA
    { playerId := 1, roomId := "AAAAAA", name := some "Alice" }
    (by rfl) (by rfl) (by rfl) (by rfl) (by decide)).1
